import Mathlib

/-!
Verification development for the GrayScope C fixture corpus.

Each C fixture function is shallowly embedded as a Lean function.
Stateful code is modelled by explicit state passing: a mutex state
carries the multiset of currently held locks together with an event
trace (acquire, release, blocking call, sibling-function call).
Pointers that may be NULL become `Option`/`Bool` parameters, C strings
become `List Char`, and `size_t` arithmetic is `Nat` with an explicit
`% 2 ^ 64` where the C computation can wrap.
-/

/-- Events recorded while executing a fixture function, generic in the
identifier type of the file's locks. `blockingOp` records a blocking
primitive (recv/accept); `callFn` records a call to a sibling function
of the same file (lock effects are per-function, as in the analyzer's
intraprocedural lock-state traversal). -/
inductive LockEv (α : Type) where
  | acq (l : α)
  | rel (l : α)
  | blockingOp (opname : String)
  | callFn (fname : String)
deriving DecidableEq, Repr

/-- Mutex state of one run: locks currently held (most recent first)
and the trace of events so far. -/
structure MutexSt (α : Type) where
  held : List α
  trace : List (LockEv α)
deriving DecidableEq, Repr

/-- Fresh mutex state: nothing held, empty trace. -/
def MutexSt.init {α : Type} : MutexSt α := ⟨[], []⟩

/-- `pthread_mutex_lock(&l)`: records the acquire and adds `l` to the
held set. -/
def pthread_mutex_lock {α : Type} (l : α) (s : MutexSt α) : MutexSt α :=
  ⟨l :: s.held, s.trace ++ [LockEv.acq l]⟩

/-- `pthread_mutex_unlock(&l)`: records the release and removes one
occurrence of `l` from the held set. -/
def pthread_mutex_unlock {α : Type} [DecidableEq α] (l : α) (s : MutexSt α) : MutexSt α :=
  ⟨s.held.erase l, s.trace ++ [LockEv.rel l]⟩

/-- A blocking primitive (recv/accept): records the event only. -/
def blockingPrim {α : Type} (opname : String) (s : MutexSt α) : MutexSt α :=
  ⟨s.held, s.trace ++ [LockEv.blockingOp opname]⟩

/-- A call to a sibling function of the same file, recorded as an
opaque event (per-function lock analysis). -/
def siblingCall {α : Type} (fname : String) (s : MutexSt α) : MutexSt α :=
  ⟨s.held, s.trace ++ [LockEv.callFn fname]⟩

/-- Index of the first `acq l` event in a trace. -/
def firstAcqIdx {α : Type} [DecidableEq α] (l : α) (tr : List (LockEv α)) : Option Nat :=
  tr.findIdx? (fun e =>
    match e with
    | LockEv.acq x => decide (x = l)
    | _ => false)

/-- `l1` is acquired strictly before `l2` in the trace (both must be
acquired). -/
def acquiresBefore {α : Type} [DecidableEq α] (l1 l2 : α) (tr : List (LockEv α)) : Bool :=
  match firstAcqIdx l1 tr, firstAcqIdx l2 tr with
  | some i, some j => decide (i < j)
  | _, _ => false

/-- Acquire-while-holding edges of a trace: replaying the trace from
the given held set, each `acq l` contributes one edge `(h, l)` for
every lock `h` held at that moment. -/
def lockOrderEdgesFrom {α : Type} [DecidableEq α] :
    List α → List (LockEv α) → List (α × α)
  | _, [] => []
  | held, LockEv.acq l :: rest =>
      held.reverse.map (fun h => (h, l)) ++ lockOrderEdgesFrom (l :: held) rest
  | held, LockEv.rel l :: rest => lockOrderEdgesFrom (held.erase l) rest
  | held, LockEv.blockingOp _ :: rest => lockOrderEdgesFrom held rest
  | held, LockEv.callFn _ :: rest => lockOrderEdgesFrom held rest

/-- Acquire-while-holding edges of a function run started with nothing
held. -/
def lockOrderEdges {α : Type} [DecidableEq α] (tr : List (LockEv α)) : List (α × α) :=
  lockOrderEdgesFrom [] tr

/-- Every blocking event of the trace happens while `l` is held
(replaying the held set from the given start). -/
def blockingOpsWhileHolding {α : Type} [DecidableEq α] :
    α → List α → List (LockEv α) → Bool
  | _, _, [] => true
  | l, held, LockEv.acq x :: rest => blockingOpsWhileHolding l (x :: held) rest
  | l, held, LockEv.rel x :: rest => blockingOpsWhileHolding l (held.erase x) rest
  | l, held, LockEv.blockingOp _ :: rest =>
      held.contains l && blockingOpsWhileHolding l held rest
  | l, held, LockEv.callFn _ :: rest => blockingOpsWhileHolding l held rest

/-! ## sample_lock.c -/

/-- The two global pthread mutexes of sample_lock.c. -/
inductive LockId where
  | g_lock_a
  | g_lock_b
deriving DecidableEq, Repr

/-- Program state of sample_lock.c: mutex state plus the file's two
global integers. -/
structure LockFileSt where
  mu : MutexSt LockId
  g_shared_data : Int
  g_counter : Int
deriving DecidableEq, Repr

/-- Initial state of sample_lock.c: globals zero, nothing held. -/
def LockFileSt.start : LockFileSt := ⟨MutexSt.init, 0, 0⟩

/-- `safe_increment`: lock a, `g_shared_data++`, unlock a. -/
def safe_increment (s0 : LockFileSt) : LockFileSt :=
  let s := { s0 with mu := pthread_mutex_lock LockId.g_lock_a s0.mu }
  let s := { s with g_shared_data := s.g_shared_data + 1 }
  { s with mu := pthread_mutex_unlock LockId.g_lock_a s.mu }

/-- `risky_operation`: locks a; if `result == NULL` returns `-1`
without unlocking; otherwise stores `g_shared_data` through the
pointer, increments `g_counter`, unlocks and returns `0`. The returned
`Option Int` is the value written through `result` (`none` when the
pointer was NULL). -/
def risky_operation (resultIsNull : Bool) (s0 : LockFileSt) :
    LockFileSt × Int × Option Int :=
  let s := { s0 with mu := pthread_mutex_lock LockId.g_lock_a s0.mu }
  if resultIsNull then
    (s, -1, none)
  else
    let written := s.g_shared_data
    let s := { s with g_counter := s.g_counter + 1 }
    let s := { s with mu := pthread_mutex_unlock LockId.g_lock_a s.mu }
    (s, 0, some written)

/-- `path_a_handler`: lock a, `g_shared_data = 1`, lock b,
`g_counter++`, unlock b, unlock a. -/
def path_a_handler (s0 : LockFileSt) : LockFileSt :=
  let s := { s0 with mu := pthread_mutex_lock LockId.g_lock_a s0.mu }
  let s := { s with g_shared_data := 1 }
  let s := { s with mu := pthread_mutex_lock LockId.g_lock_b s.mu }
  let s := { s with g_counter := s.g_counter + 1 }
  let s := { s with mu := pthread_mutex_unlock LockId.g_lock_b s.mu }
  { s with mu := pthread_mutex_unlock LockId.g_lock_a s.mu }

/-- `path_b_handler`: lock b, `g_counter = 1`, lock a,
`g_shared_data++`, unlock a, unlock b. -/
def path_b_handler (s0 : LockFileSt) : LockFileSt :=
  let s := { s0 with mu := pthread_mutex_lock LockId.g_lock_b s0.mu }
  let s := { s with g_counter := 1 }
  let s := { s with mu := pthread_mutex_lock LockId.g_lock_a s.mu }
  let s := { s with g_shared_data := s.g_shared_data + 1 }
  let s := { s with mu := pthread_mutex_unlock LockId.g_lock_a s.mu }
  { s with mu := pthread_mutex_unlock LockId.g_lock_b s.mu }

/-- State of `conditional_lock` at the join point of its if/else: the
true branch (`condition > 0`) locks a and increments `g_shared_data`
without unlocking; the false branch only increments `g_counter`. -/
def conditional_lock_join (condition : Int) (s0 : LockFileSt) : LockFileSt :=
  if condition > 0 then
    let s := { s0 with mu := pthread_mutex_lock LockId.g_lock_a s0.mu }
    { s with g_shared_data := s.g_shared_data + 1 }
  else
    { s0 with g_counter := s0.g_counter + 1 }

/-- `conditional_lock`: the branch join above followed by the
unconditional `pthread_mutex_unlock(&g_lock_a)`. -/
def conditional_lock (condition : Int) (s0 : LockFileSt) : LockFileSt :=
  let j := conditional_lock_join condition s0
  { j with mu := pthread_mutex_unlock LockId.g_lock_a j.mu }

/-- `on_message_callback`: dispatches on `type` to `safe_increment`
(type 1) or `path_a_handler` (type 2); the calls are recorded as
sibling-call events (no direct lock operation of its own). -/
def on_message_callback (type : Int) (s0 : LockFileSt) : LockFileSt :=
  if type = 1 then
    { s0 with mu := siblingCall "safe_increment" s0.mu }
  else if type = 2 then
    { s0 with mu := siblingCall "path_a_handler" s0.mu }
  else
    s0

/-- `thread_entry`: calls `on_message_callback(1, arg)`. -/
def thread_entry (s0 : LockFileSt) : LockFileSt :=
  { s0 with mu := siblingCall "on_message_callback" s0.mu }

/-! ## sample_protocol.c -/

/-- The single global pthread mutex of sample_protocol.c. -/
inductive ProtoLock where
  | conn_lock
deriving DecidableEq, Repr

/-- Program state of sample_protocol.c: mutex state plus the global
connection-state integer. -/
structure ProtoSt where
  mu : MutexSt ProtoLock
  g_connection_state : Int
deriving DecidableEq, Repr

/-- Initial state of sample_protocol.c. -/
def ProtoSt.start : ProtoSt := ⟨MutexSt.init, 0⟩

/-- `recv_data_handler`: lock conn_lock, blocking `recv`, unlock,
return the received count. `recvResult` models the value `recv`
returns. -/
def recv_data_handler (recvResult : Int) (s0 : ProtoSt) : ProtoSt × Int :=
  let s := { s0 with mu := pthread_mutex_lock ProtoLock.conn_lock s0.mu }
  let s := { s with mu := blockingPrim "recv" s.mu }
  let received := recvResult
  let s := { s with mu := pthread_mutex_unlock ProtoLock.conn_lock s.mu }
  (s, received)

/-- `accept_connection_callback`: lock conn_lock, blocking `accept`,
unlock; then return `-1` if the client fd is negative, else set
`g_connection_state = 2` and return the fd. `acceptResult` models the
value `accept` returns. -/
def accept_connection_callback (acceptResult : Int) (s0 : ProtoSt) : ProtoSt × Int :=
  let s := { s0 with mu := pthread_mutex_lock ProtoLock.conn_lock s0.mu }
  let s := { s with mu := blockingPrim "accept" s.mu }
  let client_fd := acceptResult
  let s := { s with mu := pthread_mutex_unlock ProtoLock.conn_lock s.mu }
  if client_fd < 0 then
    (s, -1)
  else
    ({ s with g_connection_state := 2 }, client_fd)

/-! ## storage_module.c: pool_insert -/

/-- `POOL_SIZE` from storage_module.c. -/
def POOL_SIZE : Nat := 64

/-- The pool mutex of storage_module.c. -/
inductive PoolLock where
  | pool_lock
deriving DecidableEq, Repr

/-- `block_pool_t`, modelled by the keys of its first `count` entry
slots (`count` is the list's length, at most `POOL_SIZE`). -/
structure block_pool_t where
  entries : List String
deriving DecidableEq, Repr

/-- `pool_insert`: `-EINVAL` (`-22`) when pool or entry is NULL;
otherwise takes `pool_lock`, returns `-ENOSPC` (`-28`) without
unlocking when the pool is full, `-EEXIST` (`-17`) after unlocking on
a duplicate key, and `0` after appending the entry and unlocking. -/
def pool_insert (poolIsNull entryIsNull : Bool) (pool : block_pool_t)
    (entryKey : String) : block_pool_t × MutexSt PoolLock × Int :=
  if poolIsNull || entryIsNull then
    (pool, MutexSt.init, -22)
  else
    let mu := pthread_mutex_lock PoolLock.pool_lock MutexSt.init
    if POOL_SIZE ≤ pool.entries.length then
      (pool, mu, -28)
    else if pool.entries.contains entryKey then
      (pool, pthread_mutex_unlock PoolLock.pool_lock mu, -17)
    else
      (⟨pool.entries ++ [entryKey]⟩, pthread_mutex_unlock PoolLock.pool_lock mu, 0)

/-! ## sample_branch.c -/

/-- The scan loop of `process_input`: walks the buffer up to `size`
characters and stops at the first NUL (the loop has no effect beyond
its own index; the function returns the index where it stopped). -/
def scan_for_nul : List Char → Nat → Nat
  | _, 0 => 0
  | [], _ => 0
  | c :: rest, n + 1 => if c = Char.ofNat 0 then 0 else scan_for_nul rest n + 1

/-- `process_input`: `-1` on NULL buffer, `-2` on `size <= 0`, `-3` on
`size > 1024`, else increments `global_counter`, scans the buffer and
returns `0`. Result is `(return value, new global_counter)`. -/
def process_input (bufferIsNull : Bool) (buffer : List Char) (size : Int)
    (global_counter : Int) : Int × Int :=
  if bufferIsNull then
    (-1, global_counter)
  else if size ≤ 0 then
    (-2, global_counter)
  else if size > 1024 then
    (-3, global_counter)
  else
    let global_counter := global_counter + 1
    let _ := scan_for_nul buffer size.toNat
    (0, global_counter)

/-- The `while (g_status > 0) g_status--;` loop of `handle_command`,
with explicit fuel: `none` means the fuel ran out before the loop
exited, `some s` is the final value of `g_status`. -/
def drainLoop : Nat → Int → Option Int
  | 0, s => if s > 0 then none else some s
  | fuel + 1, s => if s > 0 then drainLoop fuel (s - 1) else some s

/-- `handle_command` after the switch broke out with `g_status` set:
runs the drain loop and returns `0`. -/
def handle_command_tail (fuel : Nat) (g_status g_counter : Int) :
    Option (Int × Int × Int) :=
  (drainLoop fuel g_status).map (fun s => (0, s, g_counter))

/-- `handle_command`: case 1 sets `g_status = 1` and returns
`process_input(NULL, 0)`; cases 2 and 3 set `g_status` to the case
value and fall to the drain loop; default sets `g_status = -1` and
returns `-1`. Result is `some (return value, g_status, global_counter)`
when the fuel suffices for the loop. The `g_status` parameter is the
global's value at entry; every switch case overwrites it. -/
def handle_command (fuel : Nat) (cmd : Int) (g_status g_counter : Int) :
    Option (Int × Int × Int) :=
  if cmd = 1 then
    let g_status := (1 : Int)
    let (ret, g_counter) := process_input true [] 0 g_counter
    some (ret, g_status, g_counter)
  else if cmd = 2 then
    handle_command_tail fuel 2 g_counter
  else if cmd = 3 then
    handle_command_tail fuel 3 g_counter
  else
    some (-1, -1, g_counter)

/-! ## sample_overflow.c: integer overflow -/

/-- `SIZE_MAX` for a 64-bit `size_t`. -/
def SIZE_MAX : Nat := 2 ^ 64 - 1

/-- `allocate_buffer_safe`: the guard `count > SIZE_MAX / size`
followed by `malloc(count * size)`. The outer `Option` is definedness:
when `size = 0` the guard's division `SIZE_MAX / size` is a division
by zero, undefined behavior in C, modelled as `none`. Otherwise
`some none` is the NULL return and `some (some n)` passes `n` —
the product reduced mod `2 ^ 64`, as `size_t` multiplication wraps —
to `malloc`. -/
def allocate_buffer_safe (count size : Nat) : Option (Option Nat) :=
  if size = 0 then
    none
  else if SIZE_MAX / size < count then
    some none
  else
    some (some (count * size % 2 ^ 64))

/-- The guard expression of `allocate_buffer_safe` is well-defined at
`(count, size)` (no division by zero). -/
def allocate_buffer_safe_defined (count size : Nat) : Bool :=
  (allocate_buffer_safe count size).isSome

/-! ## sample_overflow.c: buffer writes -/

/-- The NUL character. -/
def nulChar : Char := Char.ofNat 0

/-- The writes `strcpy(dest, src)` performs into `dest`, as
`(index, character)` pairs: every character of `src` in order, then
the terminating NUL at index `src.length`. -/
def strcpy_writes (src : List Char) : List (Nat × Char) :=
  src.enum ++ [(src.length, nulChar)]

/-- The writes `strncpy(dest, src, n)` performs into `dest`: exactly
`n` bytes, byte `i` being `src[i]` when `i < src.length` and NUL
padding otherwise. -/
def strncpy_writes (src : List Char) (n : Nat) : List (Nat × Char) :=
  (List.range n).map (fun i =>
    (i, if h : i < src.length then src.get ⟨i, h⟩ else nulChar))

/-- The declared capacity of the local `buffer[64]` in
`process_username` and `process_username_safe`. -/
def USERNAME_BUF_SIZE : Nat := 64

/-- The writes `process_username` performs into its 64-byte `buffer`:
a single unbounded `strcpy` from `input`. -/
def process_username_writes (input : List Char) : List (Nat × Char) :=
  strcpy_writes input

/-- The writes `process_username_safe` performs into its 64-byte
`buffer`: `strncpy(buffer, input, sizeof(buffer) - 1)` followed by the
explicit `buffer[sizeof(buffer) - 1] = nul` store. -/
def process_username_safe_writes (input : List Char) : List (Nat × Char) :=
  strncpy_writes input (USERNAME_BUF_SIZE - 1) ++ [(USERNAME_BUF_SIZE - 1, nulChar)]

/-- Apply a write list to a byte-addressed buffer, in order. -/
def applyWrites (buf : Nat → Char) (ws : List (Nat × Char)) : Nat → Char :=
  ws.foldl (fun b w => fun i => if i = w.1 then w.2 else b i) buf

/-! ## sample_overflow.c: TOCTOU -/

/-- Filesystem operations a fixture function performs, with their
arguments and (for checks) the result the environment returned:
`accessChk p m ok` is `access(p, m) == 0` evaluating to `ok`;
`openCall p fl fd` is `open(p, fl)` returning `fd`; `fstatCall fd ok`
is `fstat(fd, &st) == 0` evaluating to `ok`; `closeCall fd` is
`close(fd)`. -/
inductive FsOp where
  | accessChk (path : String) (mode : Nat) (ok : Bool)
  | openCall (path : String) (flags : Nat) (fd : Int)
  | fstatCall (fd : Int) (ok : Bool)
  | closeCall (fd : Int)
deriving DecidableEq, Repr

/-- `R_OK`. -/
def R_OK : Nat := 4

/-- `O_RDONLY`. -/
def O_RDONLY : Nat := 0

/-- `O_NOFOLLOW` (Linux, octal 0400000). -/
def O_NOFOLLOW : Nat := 131072

/-- The filesystem environment a run observes: the outcome of the one
`access` check, the fd the one `open` returns, the outcome of the one
`fstat`, and whether the stat'd mode satisfies `S_ISREG`. -/
structure FsEnv where
  accessOk : Bool
  openFd : Int
  fstatOk : Bool
  isReg : Bool

/-- `open_if_readable`: if `access(path, R_OK) == 0`, re-open the same
path with `open(path, O_RDONLY)` and return its fd; else return `-1`.
Result is `(return value, trace of filesystem operations)`. -/
def open_if_readable (env : FsEnv) (path : String) : Int × List FsOp :=
  if env.accessOk then
    (env.openFd,
     [FsOp.accessChk path R_OK true, FsOp.openCall path O_RDONLY env.openFd])
  else
    (-1, [FsOp.accessChk path R_OK false])

/-- `open_and_verify`: `open(path, O_RDONLY | O_NOFOLLOW)` first; on
failure return `-1`; then `fstat` on the returned fd, closing and
returning `-1` if it fails or `S_ISREG` is false; else return the fd.
Every operation after the open is on the descriptor, never the path. -/
def open_and_verify (env : FsEnv) (path : String) : Int × List FsOp :=
  let fd := env.openFd
  let tr0 := [FsOp.openCall path (O_RDONLY + O_NOFOLLOW) fd]
  if fd < 0 then
    (-1, tr0)
  else
    let tr1 := tr0 ++ [FsOp.fstatCall fd env.fstatOk]
    if env.fstatOk = false then
      (-1, tr1 ++ [FsOp.closeCall fd])
    else if env.isReg = false then
      (-1, tr1 ++ [FsOp.closeCall fd])
    else
      (fd, tr1)

/-- Every `open` in the trace names a path on which an `access` check
already succeeded earlier in the trace (the accumulator carries the
paths whose access checks have succeeded so far). -/
def opensAfterSuccessfulAccess : List String → List FsOp → Bool
  | _, [] => true
  | okPaths, FsOp.accessChk p _ ok :: rest =>
      opensAfterSuccessfulAccess (if ok then p :: okPaths else okPaths) rest
  | okPaths, FsOp.openCall p _ _ :: rest =>
      okPaths.contains p && opensAfterSuccessfulAccess okPaths rest
  | okPaths, FsOp.fstatCall _ _ :: rest => opensAfterSuccessfulAccess okPaths rest
  | okPaths, FsOp.closeCall _ :: rest => opensAfterSuccessfulAccess okPaths rest

/-- The trace starts with an `open` and every later operation acts on
the descriptor that open returned (`fstat`/`close` on that fd), never
on a path string. -/
def openFirstThenFdOnly : List FsOp → Bool
  | FsOp.openCall _ _ fd :: rest =>
      rest.all (fun op =>
        match op with
        | FsOp.fstatCall f _ => decide (f = fd)
        | FsOp.closeCall f => decide (f = fd)
        | _ => false)
  | _ => false

/-! ## sample_funcptr.c -/

/-- The function symbols of sample_funcptr.c that get bound to
function-pointer storage. -/
inductive FSym where
  | my_callback
  | process_data
  | cleanup_handler
deriving DecidableEq, Repr

/-- `process_data`: `-1` when `data` is NULL or `len` is zero, else
`0`. -/
def process_data (dataIsNull : Bool) (len : Nat) : Int :=
  if dataIsNull ∨ len = 0 then -1 else 0

/-- `cleanup_handler`: frees `data` when non-NULL and returns `0`. -/
def cleanup_handler (dataIsNull : Bool) (len : Nat) : Int := 0

/-- `struct handler_ops`: two function-pointer fields, each holding
the set of at most one function symbol it was bound to (`none` is an
uninitialized pointer). -/
structure handler_ops where
  process : Option FSym
  cleanup : Option FSym
deriving DecidableEq, Repr

/-- `test_direct_assignment`: `callback_t cb = my_callback; cb(42);`.
The log pairs each indirect call's resolved target with its
argument. -/
def test_direct_assignment : List (Option FSym × Int) :=
  let cb : Option FSym := some FSym.my_callback
  [(cb, 42)]

/-- `test_addressof_assignment`: `callback_t cb = &my_callback;
cb(100);` — address-of binds the same single target. -/
def test_addressof_assignment : List (Option FSym × Int) :=
  let cb : Option FSym := some FSym.my_callback
  [(cb, 100)]

/-- `test_struct_member`: binds `ops.process = process_data` and
`ops.cleanup = cleanup_handler`, then calls both with `(NULL, 0)`.
The log pairs each call's resolved target with its
`(data is NULL, len)` arguments. -/
def test_struct_member : List (Option FSym × Bool × Nat) :=
  let ops : handler_ops :=
    { process := some FSym.process_data, cleanup := some FSym.cleanup_handler }
  [(ops.process, true, 0), (ops.cleanup, true, 0)]

/-- The file-scope `callback_table[10]`, initially all NULL. -/
def callback_table_start : List (Option FSym) := List.replicate 10 none

/-- `test_array_funcptr`: stores `my_callback` into slots 0 and 1 of
`callback_table`, then calls `callback_table[i](i)` for `i` in
`{0, 1}`. -/
def test_array_funcptr : List (Option FSym × Int) :=
  let callback_table :=
    (callback_table_start.set 0 (some FSym.my_callback)).set 1 (some FSym.my_callback)
  (List.range 2).map (fun i => (callback_table.getD i none, (i : Int)))

example : (path_a_handler LockFileSt.start).mu.trace =
    [LockEv.acq LockId.g_lock_a, LockEv.acq LockId.g_lock_b,
     LockEv.rel LockId.g_lock_b, LockEv.rel LockId.g_lock_a] := by decide

example : lockOrderEdges (path_a_handler LockFileSt.start).mu.trace =
    [(LockId.g_lock_a, LockId.g_lock_b)] := by decide

example : lockOrderEdges (path_b_handler LockFileSt.start).mu.trace =
    [(LockId.g_lock_b, LockId.g_lock_a)] := by decide

example : handle_command 3 2 7 0 = some (0, 0, 0) := by decide

example : handle_command 3 1 7 5 = some (-1, 1, 5) := by decide

example : (pool_insert false false ⟨["a"]⟩ "a").2.2 = -17 := by decide

/-- C1: `path_a_handler` acquires `g_lock_a` strictly before
`g_lock_b` and releases both before returning; `path_b_handler`
acquires `g_lock_b` strictly before `g_lock_a` and releases both; the
acquire-while-holding edges of the two are `(a, b)` and `(b, a)` — a
cycle of length 2 — while every other function of sample_lock.c
contributes no acquire-while-holding edge at all, so exactly the pair
`{path_a_handler, path_b_handler}` forms the cycle. -/
theorem abba_lock_order_cycle :
    acquiresBefore LockId.g_lock_a LockId.g_lock_b
      (path_a_handler LockFileSt.start).mu.trace = true ∧
    (path_a_handler LockFileSt.start).mu.held = [] ∧
    acquiresBefore LockId.g_lock_b LockId.g_lock_a
      (path_b_handler LockFileSt.start).mu.trace = true ∧
    (path_b_handler LockFileSt.start).mu.held = [] ∧
    lockOrderEdges (path_a_handler LockFileSt.start).mu.trace =
      [(LockId.g_lock_a, LockId.g_lock_b)] ∧
    lockOrderEdges (path_b_handler LockFileSt.start).mu.trace =
      [(LockId.g_lock_b, LockId.g_lock_a)] ∧
    lockOrderEdges (safe_increment LockFileSt.start).mu.trace = [] ∧
    (∀ b : Bool,
      lockOrderEdges (risky_operation b LockFileSt.start).1.mu.trace = []) ∧
    (∀ c : Int,
      lockOrderEdges (conditional_lock c LockFileSt.start).mu.trace = []) ∧
    (∀ t : Int,
      lockOrderEdges (on_message_callback t LockFileSt.start).mu.trace = []) ∧
    lockOrderEdges (thread_entry LockFileSt.start).mu.trace = [] := by
  refine ⟨by decide, by decide, by decide, by decide, by decide, by decide,
    by decide, by decide, ?_, ?_, by decide⟩
  · intro c
    by_cases h : c > 0 <;>
      simp [conditional_lock, conditional_lock_join, h, pthread_mutex_lock,
        pthread_mutex_unlock, LockFileSt.start, MutexSt.init,
        lockOrderEdges, lockOrderEdgesFrom]
  · intro t
    by_cases h1 : t = 1
    · simp [on_message_callback, h1, siblingCall, LockFileSt.start,
        MutexSt.init, lockOrderEdges, lockOrderEdgesFrom]
    · by_cases h2 : t = 2 <;>
        simp [on_message_callback, h1, h2, siblingCall, LockFileSt.start,
          MutexSt.init, lockOrderEdges, lockOrderEdgesFrom]

/-- C2: the two branches of `conditional_lock` reach the join with
different held-lock sets — `[g_lock_a]` when `condition > 0`, `[]`
when `condition <= 0` — and on the false-branch path the unconditional
final `pthread_mutex_unlock(&g_lock_a)` (the last event of every run's
trace) executes with `g_lock_a` not held. -/
theorem conditional_lock_join_mismatch (c : Int) :
    (0 < c →
      (conditional_lock_join c LockFileSt.start).mu.held = [LockId.g_lock_a]) ∧
    (c ≤ 0 →
      (conditional_lock_join c LockFileSt.start).mu.held = [] ∧
      LockId.g_lock_a ∉ (conditional_lock_join c LockFileSt.start).mu.held) ∧
    (conditional_lock c LockFileSt.start).mu.trace.getLast? =
      some (LockEv.rel LockId.g_lock_a) := by
  by_cases h : c > 0
  · refine ⟨fun _ => ?_, fun hle => absurd h (not_lt.mpr hle), ?_⟩ <;>
      simp [conditional_lock, conditional_lock_join, h, pthread_mutex_lock,
        pthread_mutex_unlock, LockFileSt.start, MutexSt.init]
  · refine ⟨fun hlt => absurd hlt h, fun _ => ?_, ?_⟩ <;>
      simp [conditional_lock, conditional_lock_join, h, pthread_mutex_lock,
        pthread_mutex_unlock, LockFileSt.start, MutexSt.init]

/-- C2 witness: at `condition = 1` the join is reached holding
`g_lock_a`; at `condition = 0` the join is reached holding nothing. -/
theorem conditional_lock_join_mismatch_witness :
    (conditional_lock_join 1 LockFileSt.start).mu.held = [LockId.g_lock_a] ∧
    (conditional_lock_join 0 LockFileSt.start).mu.held = [] :=
  ⟨(conditional_lock_join_mismatch 1).1 (by decide),
   ((conditional_lock_join_mismatch 0).2.1 (by decide)).1⟩

/-- C6: `risky_operation` acquires `g_lock_a` as its first event on
both paths; with a NULL `result` it returns `-1` with `g_lock_a` still
held, otherwise it returns `0` with nothing held — so exactly one of
its two terminal paths ends with a non-empty held set. -/
theorem risky_operation_single_leak_path :
    (∀ b : Bool,
      (risky_operation b LockFileSt.start).1.mu.trace.head? =
        some (LockEv.acq LockId.g_lock_a) ∧
      (risky_operation b LockFileSt.start).2.1 = (if b then -1 else 0) ∧
      (risky_operation b LockFileSt.start).1.mu.held =
        (if b then [LockId.g_lock_a] else []) ∧
      (risky_operation b LockFileSt.start).2.2 =
        (if b then none else some 0)) ∧
    (risky_operation true LockFileSt.start).1.mu.held ≠ [] ∧
    (risky_operation false LockFileSt.start).1.mu.held = [] := by decide

/-- C7: in `recv_data_handler` the blocking `recv` happens while
`conn_lock` is held, in `accept_connection_callback` the blocking
`accept` happens while `conn_lock` is held, and both functions return
with nothing held on every path (lock usage balanced). -/
theorem blocking_while_holding_conn_lock (r a : Int) :
    blockingOpsWhileHolding ProtoLock.conn_lock []
      (recv_data_handler r ProtoSt.start).1.mu.trace = true ∧
    LockEv.blockingOp "recv" ∈ (recv_data_handler r ProtoSt.start).1.mu.trace ∧
    (recv_data_handler r ProtoSt.start).1.mu.held = [] ∧
    (recv_data_handler r ProtoSt.start).2 = r ∧
    blockingOpsWhileHolding ProtoLock.conn_lock []
      (accept_connection_callback a ProtoSt.start).1.mu.trace = true ∧
    LockEv.blockingOp "accept" ∈
      (accept_connection_callback a ProtoSt.start).1.mu.trace ∧
    (accept_connection_callback a ProtoSt.start).1.mu.held = [] := by
  have hrecv : (recv_data_handler r ProtoSt.start).1.mu =
      ⟨[], [LockEv.acq ProtoLock.conn_lock, LockEv.blockingOp "recv",
            LockEv.rel ProtoLock.conn_lock]⟩ := rfl
  have haccept : (accept_connection_callback a ProtoSt.start).1.mu =
      ⟨[], [LockEv.acq ProtoLock.conn_lock, LockEv.blockingOp "accept",
            LockEv.rel ProtoLock.conn_lock]⟩ := by
    by_cases h : a < 0 <;>
      simp [accept_connection_callback, h, pthread_mutex_lock, blockingPrim,
        pthread_mutex_unlock, ProtoSt.start, MutexSt.init]
  refine ⟨?_, ?_, ?_, rfl, ?_, ?_, ?_⟩ <;>
    simp only [hrecv, haccept] <;> decide

/-- C9: `pool_insert` returns one of `0`, `-EINVAL`, `-ENOSPC`,
`-EEXIST`; on every nonzero return the pool (entries and count) is
unchanged; and the pool lock is held at return exactly on the
`-ENOSPC` path. -/
theorem pool_insert_error_paths (pn en : Bool) (pool : block_pool_t)
    (key : String) :
    ((pool_insert pn en pool key).2.2 = 0 ∨
     (pool_insert pn en pool key).2.2 = -22 ∨
     (pool_insert pn en pool key).2.2 = -28 ∨
     (pool_insert pn en pool key).2.2 = -17) ∧
    ((pool_insert pn en pool key).2.2 ≠ 0 →
      (pool_insert pn en pool key).1 = pool) ∧
    (pool_insert pn en pool key).2.1.held =
      (if (pool_insert pn en pool key).2.2 = -28 then [PoolLock.pool_lock]
       else []) := by
  unfold pool_insert
  split_ifs with h1 h2 h3 <;>
    simp_all [pthread_mutex_lock, pthread_mutex_unlock, MutexSt.init]

/-- C9 witness: inserting with a NULL pool fails with `-EINVAL`,
leaves the pool unchanged, and returns with the lock released. -/
theorem pool_insert_error_paths_witness :
    (pool_insert true false ⟨[]⟩ "k").2.2 = -22 ∧
    (pool_insert true false ⟨[]⟩ "k").1 = ⟨[]⟩ ∧
    (pool_insert true false ⟨[]⟩ "k").2.1.held = [] :=
  ⟨by decide, (pool_insert_error_paths true false ⟨[]⟩ "k").2.1 (by decide),
   by decide⟩

/-- C10: `handle_command` terminates for every command and every
initial `g_status` (some fuel makes the fueled embedding return a
result, and the result is either return value 0 with `g_status = 0` at
the return point, or return value -1); and the while loop strictly
decreases `g_status` while it is positive. -/
theorem handle_command_terminates (cmd s0 c0 : Int) :
    (∃ fuel ret s c, handle_command fuel cmd s0 c0 = some (ret, s, c) ∧
      ((ret = 0 ∧ s = 0) ∨ ret = -1)) ∧
    (∀ fuel : Nat, ∀ s : Int, 0 < s →
      drainLoop (fuel + 1) s = drainLoop fuel (s - 1) ∧ s - 1 < s) := by
  constructor
  · by_cases h1 : cmd = 1
    · subst h1
      exact ⟨3, -1, 1, c0, rfl, Or.inr rfl⟩
    · by_cases h2 : cmd = 2
      · subst h2
        exact ⟨3, 0, 0, c0, rfl, Or.inl ⟨rfl, rfl⟩⟩
      · by_cases h3 : cmd = 3
        · subst h3
          exact ⟨3, 0, 0, c0, rfl, Or.inl ⟨rfl, rfl⟩⟩
        · refine ⟨3, -1, -1, c0, ?_, Or.inr rfl⟩
          simp [handle_command, h1, h2, h3]
  · intro fuel s hs
    exact ⟨by simp [drainLoop, hs], by omega⟩

/-- C10 witness: one unrolling of the loop at `g_status = 2` steps to
`g_status = 1`, which is smaller. -/
theorem handle_command_terminates_witness :
    drainLoop (0 + 1) 2 = drainLoop 0 (2 - 1) ∧ (2 : Int) - 1 < 2 :=
  (handle_command_terminates 2 5 0).2 0 2 (by decide)

/-- C3: `process_username` (an unbounded `strcpy`) writes past the
64-byte buffer for every input of length at least 64, while
`process_username_safe` (a `strncpy` bounded to 63 bytes plus an
explicit NUL store at index 63) keeps every write strictly inside the
64-byte bounds and leaves the buffer NUL-terminated on return. -/
theorem process_username_buffer_bounds :
    (∀ input : List Char, USERNAME_BUF_SIZE ≤ input.length →
      ∃ w ∈ process_username_writes input, USERNAME_BUF_SIZE ≤ w.1) ∧
    (∀ input : List Char, ∀ w ∈ process_username_safe_writes input,
      w.1 < USERNAME_BUF_SIZE) ∧
    (∀ input : List Char, ∀ buf : Nat → Char,
      applyWrites buf (process_username_safe_writes input)
        (USERNAME_BUF_SIZE - 1) = nulChar) := by
  refine ⟨?_, ?_, ?_⟩
  · intro input h
    refine ⟨(input.length, nulChar), ?_, h⟩
    simp [process_username_writes, strcpy_writes]
  · intro input w hw
    simp only [process_username_safe_writes, strncpy_writes, USERNAME_BUF_SIZE,
      List.mem_append, List.mem_map, List.mem_range, List.mem_singleton] at hw
    rcases hw with ⟨i, hi, rfl⟩ | rfl
    · simp only [USERNAME_BUF_SIZE]
      omega
    · simp only [USERNAME_BUF_SIZE]
      omega
  · intro input buf
    simp [process_username_safe_writes, applyWrites, List.foldl_append]

/-- C3 witness: a 64-character input makes `process_username` write at
index 64, past the buffer; a write of `process_username_safe` stays in
bounds. -/
theorem process_username_buffer_bounds_witness :
    (∃ w ∈ process_username_writes (List.replicate 64 'a'),
      USERNAME_BUF_SIZE ≤ w.1) ∧
    ((0, 'x') ∈ process_username_safe_writes ['x'] ∧
      (0 : Nat) < USERNAME_BUF_SIZE) :=
  ⟨process_username_buffer_bounds.1 (List.replicate 64 'a') (by decide),
   by decide,
   process_username_buffer_bounds.2.1 ['x'] (0, 'x') (by decide)⟩

/-- C4: on every path of `open_if_readable` where `open` executes, an
`access` check on the same path string has already succeeded earlier
in the trace (the open re-specifies the path); in `open_and_verify`
the trace starts with the `open` and every later operation acts only
on the descriptor it returned, never on the path string. -/
theorem toctou_trace_shapes (env : FsEnv) (path : String) :
    opensAfterSuccessfulAccess [] (open_if_readable env path).2 = true ∧
    openFirstThenFdOnly (open_and_verify env path).2 = true := by
  obtain ⟨aok, fd, fok, reg⟩ := env
  constructor
  · cases aok <;>
      simp [open_if_readable, opensAfterSuccessfulAccess]
  · by_cases h : fd < 0 <;>
      cases fok <;> cases reg <;>
        simp [open_and_verify, h, openFirstThenFdOnly]

/-- C5 (claim as stated is false): the guard of
`allocate_buffer_safe` divides by zero when `size = 0` — at
`(count, size) = (1, 0)` the evaluation is undefined behavior, not
well-defined. -/
theorem allocate_buffer_safe_guard_div_by_zero :
    allocate_buffer_safe 1 0 = none ∧
    allocate_buffer_safe_defined 1 0 = false := by decide

/-- C5 (amended): for every `count` and every `size ≠ 0` the guard is
well-defined and `allocate_buffer_safe` either returns NULL or passes
to `malloc` exactly the mathematical product `count * size`, with no
modular wraparound. -/
theorem allocate_buffer_safe_no_wrap (count size : Nat) (h : size ≠ 0) :
    allocate_buffer_safe count size = some none ∨
    (allocate_buffer_safe count size = some (some (count * size)) ∧
      count * size ≤ SIZE_MAX) := by
  unfold allocate_buffer_safe
  rw [if_neg h]
  by_cases hg : SIZE_MAX / size < count
  · exact Or.inl (by rw [if_pos hg])
  · refine Or.inr ?_
    have hle : count * size ≤ SIZE_MAX :=
      (Nat.le_div_iff_mul_le (Nat.pos_of_ne_zero h)).mp (not_lt.mp hg)
    have hlt : count * size < 2 ^ 64 := by
      have : SIZE_MAX < 2 ^ 64 := by decide
      omega
    rw [if_neg hg, Nat.mod_eq_of_lt hlt]
    exact ⟨rfl, hle⟩

/-- C5 witness: at `(count, size) = (2, 3)` the guard passes and
`malloc` receives exactly `6`. -/
theorem allocate_buffer_safe_no_wrap_witness :
    (3 : Nat) ≠ 0 ∧
    (allocate_buffer_safe 2 3 = some none ∨
      (allocate_buffer_safe 2 3 = some (some (2 * 3)) ∧ 2 * 3 ≤ SIZE_MAX)) :=
  ⟨by decide, allocate_buffer_safe_no_wrap 2 3 (by decide)⟩

/-- C8: every indirect call of sample_funcptr.c resolves to exactly
one target: direct and address-of bindings both call `my_callback`
(with 42 and 100), the struct fields call `process_data` and
`cleanup_handler` with `(NULL, 0)`, and `callback_table[i](i)` calls
`my_callback` for `i` in `{0, 1}`; `process_data(NULL, 0)` evaluates
to `-1` and `cleanup_handler(NULL, 0)` to `0`. -/
theorem funcptr_single_target_resolution :
    test_direct_assignment = [(some FSym.my_callback, 42)] ∧
    test_addressof_assignment = [(some FSym.my_callback, 100)] ∧
    test_struct_member =
      [(some FSym.process_data, true, 0), (some FSym.cleanup_handler, true, 0)] ∧
    test_array_funcptr =
      [(some FSym.my_callback, 0), (some FSym.my_callback, 1)] ∧
    process_data true 0 = -1 ∧ cleanup_handler true 0 = 0 := by decide
